import Mathlib

/-
Shallow embedding of the host telemetry aggregation logic of
src/horizon/dashboards/syspanel/hosts/views.py.

Modelling conventions:
- Python numeric values (ints and floats) are modelled as exact rationals;
  every concrete input used below is a small integer on which Python float
  arithmetic is exact, so the rational model agrees with the source there.
- Python `int(x)` truncation toward zero is modelled by `pyint`.
- Python exceptions are modelled by `Except String`: a raising call returns
  `Except.error msg` and aborts the enclosing computation, mirroring
  propagation out of the view functions.
- The monitoring client (an external collaborator) is a record of
  fallible functions, one per capability used by views.py.
-/

deriving instance DecidableEq for Except

/-- Severity levels for utilization percentages (spec section 3). -/
inductive UtilizationClass
  | NORMAL
  | WARNING
  | CRITICAL
deriving DecidableEq

/-- Health levels derived from the integer health code (spec section 3). -/
inductive HealthState
  | OK
  | WARNING
  | ERROR
deriving DecidableEq

/-- The three-way threshold chain that views.py repeats verbatim at lines
45-50 (cpu), 62-67 (mem), 116-121 (per-interface used) and 128-133
(aggregate used): greater than 90 gives progress-danger, greater than 60
gives progress-warning, otherwise progress-success. -/
def classify (p : ℚ) : String :=
  if p > 90 then "progress-danger"
  else if p > 60 then "progress-warning"
  else "progress-success"

/-- Mapping from the CSS class strings produced by views.py to the
UtilizationClass levels named by the spec. -/
def ucOfClass (s : String) : Option UtilizationClass :=
  if s = "progress-danger" then some UtilizationClass.CRITICAL
  else if s = "progress-warning" then some UtilizationClass.WARNING
  else if s = "progress-success" then some UtilizationClass.NORMAL
  else none

/-- Mapping from the host-state CSS class strings produced by views.py
(lines 23-28) to the HealthState levels named by the spec. -/
def healthOfClass (s : String) : Option HealthState :=
  if s = "host_ok" then some HealthState.OK
  else if s = "host_warn" then some HealthState.WARNING
  else if s = "host_error" then some HealthState.ERROR
  else none

/-- Python int() applied to a rational: truncation toward zero, the
floor for nonnegative arguments and the ceiling for negative ones. -/
def pyint (q : ℚ) : ℤ :=
  if 0 ≤ q then ⌊q⌋ else ⌈q⌉

/-- Result shape of get_interface_stats (spec section 6). -/
structure IntDet where
  bandwidth : ℚ
  rx : ℚ
  tx : ℚ
  used : ℚ
deriving DecidableEq

/-- Result shape of get_partition_stats (spec section 6). -/
structure PartStats where
  total : ℚ
  used : ℚ
deriving DecidableEq

/-- The monitoring client capability contract consumed by views.py
(spec section 6).  Each call may raise, modelled by Except. -/
structure MonitorClient where
  get_overall_state : String → Except String ℤ
  get_errors : String → Except String (List String)
  get_warnings : String → Except String (List String)
  get_notices : String → Except String (List String)
  get_cpu_load : String → Except String ℚ
  get_cpu_cores : String → Except String ℤ
  get_cpu_speed : String → Except String ℚ
  get_total_memory : String → Except String ℚ
  get_mem_usage : String → Except String ℚ
  get_monitored_partitions : String → Except String (List String)
  get_partition_stats : String → String → Except String PartStats
  get_monitored_interfaces : String → Except String (List String)
  get_interface_stats : String → String → Except String IntDet

/-- The dictionary built by _get_host_dict (views.py lines 17-35). -/
structure HostDict where
  name : String
  state : ℤ
  cls : String
  errors : List String
  warnings : List String
  notices : List String
deriving DecidableEq

/-- Embedding of _get_host_dict (views.py lines 17-35): overall state,
the health class chain of lines 23-28, then errors, warnings, notices. -/
def get_host_dict (c : MonitorClient) (host : String) : Except String HostDict :=
  match c.get_overall_state host with
  | Except.error e => Except.error e
  | Except.ok state =>
    let cls := if state = 1 then "host_ok"
               else if state = 0 then "host_warn"
               else "host_error"
    match c.get_errors host with
    | Except.error e => Except.error e
    | Except.ok errors =>
      match c.get_warnings host with
      | Except.error e => Except.error e
      | Except.ok warnings =>
        match c.get_notices host with
        | Except.error e => Except.error e
        | Except.ok notices => Except.ok ⟨host, state, cls, errors, warnings, notices⟩

/-- The dictionary built by _get_host_cpu_dict (views.py lines 37-52). -/
structure CpuDict where
  cpu_load : ℚ
  cores : ℤ
  cpu_speed : ℚ
  cpu_class : String
deriving DecidableEq

/-- Embedding of _get_host_cpu_dict (views.py lines 37-52); the unused
core parameter of the source is omitted.  The class chain of lines 45-50
is the classify threshold chain. -/
def get_host_cpu_dict (c : MonitorClient) (host : String) : Except String CpuDict :=
  match c.get_cpu_load host with
  | Except.error e => Except.error e
  | Except.ok cpu_load =>
    match c.get_cpu_cores host with
    | Except.error e => Except.error e
    | Except.ok cores =>
      match c.get_cpu_speed host with
      | Except.error e => Except.error e
      | Except.ok cpu_speed => Except.ok ⟨cpu_load, cores, cpu_speed, classify cpu_load⟩

/-- The dictionary built by _get_host_mem_dict (views.py lines 54-69). -/
structure MemDict where
  total_mem : ℚ
  mem_usage : ℚ
  mem_used : ℚ
  mem_class : String
deriving DecidableEq

/-- Embedding of _get_host_mem_dict (views.py lines 54-69): mem_used is
(mem_usage / 100) * total_mem (line 60), and the class chain of lines
62-67 is the classify threshold chain. -/
def get_host_mem_dict (c : MonitorClient) (host : String) : Except String MemDict :=
  match c.get_total_memory host with
  | Except.error e => Except.error e
  | Except.ok total_mem =>
    match c.get_mem_usage host with
    | Except.error e => Except.error e
    | Except.ok mem_usage =>
      Except.ok ⟨total_mem, mem_usage, mem_usage / 100 * total_mem, classify mem_usage⟩

/-- One per-partition dictionary built inside the loop of
_get_host_part_dict (views.py lines 75-83). -/
structure PartDict where
  name : String
  total : ℚ
  used : ℚ
deriving DecidableEq

/-- Return value of _get_host_part_dict (views.py line 87): the last
per-partition dictionary of the loop with the collected list added under
the parts key (line 85). -/
structure PartResult where
  name : String
  total : ℚ
  used : ℚ
  parts : List PartDict
deriving DecidableEq

/-- The loop of _get_host_part_dict (views.py lines 75-83): collects the
per-partition dictionaries and tracks the loop variable part_dict, which
remains unassigned when the partition list is empty. -/
def partLoop (c : MonitorClient) (host : String) :
    List String → List PartDict → Option PartDict →
    Except String (List PartDict × Option PartDict)
  | [], parts_ret, last => Except.ok (parts_ret, last)
  | part :: rest, parts_ret, _ =>
    match c.get_partition_stats host part with
    | Except.error e => Except.error e
    | Except.ok stats =>
      let part_dict : PartDict := ⟨part, stats.total, stats.used⟩
      partLoop c host rest (parts_ret ++ [part_dict]) (some part_dict)

/-- Embedding of _get_host_part_dict (views.py lines 71-87).  Line 85
reads the loop variable part_dict after the loop; when the host has zero
monitored partitions that variable was never assigned and Python raises
UnboundLocalError, modelled by the error branch. -/
def get_host_part_dict (c : MonitorClient) (host : String) : Except String PartResult :=
  match c.get_monitored_partitions host with
  | Except.error e => Except.error e
  | Except.ok parts =>
    match partLoop c host parts [] none with
    | Except.error e => Except.error e
    | Except.ok (parts_ret, some part_dict) =>
      Except.ok ⟨part_dict.name, part_dict.total, part_dict.used, parts_ret⟩
    | Except.ok (_, none) =>
      Except.error "UnboundLocalError: local variable part_dict referenced before assignment"

/-- One row of the result of _get_host_net_dict: the per-interface rows
(views.py lines 102-121) carry a name; the aggregate row appended at
lines 136-142 has no name key, modelled by name = none. -/
structure IntDict where
  name : Option String
  bandwidth : ℚ
  rx : ℚ
  tx : ℚ
  used : ℚ
  cls : String
deriving DecidableEq

/-- The loop state of _get_host_net_dict (views.py lines 90-99): the
accumulated result rows and the running totals tband, ttx, trx, tused
and tclass.  tclass starts as the empty string (line 99). -/
structure NetState where
  net_ret : List IntDict
  tband : ℚ
  ttx : ℚ
  trx : ℚ
  tused : ℚ
  tclass : String
deriving DecidableEq

/-- Initial loop state of _get_host_net_dict (views.py lines 90-99). -/
def initNetState : NetState :=
  ⟨[], 0, 0, 0, 0, ""⟩

/-- One iteration of the interface loop of _get_host_net_dict (views.py
lines 101-133).  Note line 126: the weighted-used accumulator tused is
overwritten inside the loop with the truncated ratio
int((tused / tband) * 100), and line 126 raises ZeroDivisionError when
tband is zero. -/
def netStep (c : MonitorClient) (host : String) (iface : Option String)
    (s : NetState) (interface : String) : Except String NetState :=
  match c.get_interface_stats host interface with
  | Except.error e => Except.error e
  | Except.ok int_det =>
    let int_dict : IntDict :=
      ⟨some interface, int_det.bandwidth, int_det.rx, int_det.tx,
       int_det.used, classify int_det.used⟩
    let tband := s.tband + int_det.bandwidth
    let trx := s.trx + int_det.rx
    let ttx := s.ttx + int_det.tx
    let tusedAcc := s.tused + int_det.used / 100 * int_det.bandwidth
    let net_ret := if iface = none ∨ iface = some interface
                   then s.net_ret ++ [int_dict] else s.net_ret
    if tband = 0 then Except.error "ZeroDivisionError"
    else
      let tused : ℚ := (pyint (tusedAcc / tband * 100) : ℤ)
      Except.ok ⟨net_ret, tband, ttx, trx, tused, classify tused⟩

/-- Embedding of _get_host_net_dict (views.py lines 89-144): run the
interface loop, then append the aggregate row when the filter argument is
the None sentinel or the literal All (line 135). -/
def get_host_net_dict (c : MonitorClient) (host : String) (iface : Option String) :
    Except String (List IntDict) :=
  match c.get_monitored_interfaces host with
  | Except.error e => Except.error e
  | Except.ok ints =>
    match List.foldlM (netStep c host iface) initNetState ints with
    | Except.error e => Except.error e
    | Except.ok s =>
      Except.ok (if iface = none ∨ iface = some "All"
                 then s.net_ret ++ [⟨none, s.tband, s.trx, s.ttx, s.tused, s.tclass⟩]
                 else s.net_ret)

/-- One entry of the fleet result of HostsView.get_data (views.py lines
173-175): the merge of the general, cpu and memory dictionaries of one
host.  The key sets are disjoint, so the merged dictionary is the record
of all their fields. -/
structure HostRow where
  name : String
  state : ℤ
  cls : String
  errors : List String
  warnings : List String
  notices : List String
  cpu_load : ℚ
  cores : ℤ
  cpu_speed : ℚ
  cpu_class : String
  total_mem : ℚ
  mem_usage : ℚ
  mem_used : ℚ
  mem_class : String
deriving DecidableEq

/-- Lexicographic comparison of character lists by code point, the
ordering Python uses on byte strings. -/
def charListLe : List Char → List Char → Bool
  | [], _ => true
  | _ :: _, [] => false
  | a :: as, b :: bs =>
    if a.val < b.val then true
    else if b.val < a.val then false
    else charListLe as bs

/-- Lexicographic string comparison by code point. -/
def strLe (a b : String) : Bool :=
  charListLe a.data b.data

/-- Insertion of a string into an already sorted list, ascending. -/
def insertSorted (x : String) : List String → List String
  | [] => [x]
  | y :: ys => if strLe x y then x :: y :: ys else y :: insertSorted x ys

/-- Ascending lexicographic sort of the host keys, modelling the Python
sorted() call at views.py line 169. -/
def sortStrings : List String → List String
  | [] => []
  | x :: xs => insertSorted x (sortStrings xs)

/-- The literal host dictionary keys that views.py lines 157-167 assign
over the catalog-derived host_list. -/
def hardcoded_host_list : List String :=
  ["64.102.251.71", "64.102.251.72", "64.102.251.73",
   "64.102.251.74", "64.102.251.75", "64.102.251.76",
   "64.102.251.77", "64.102.251.78", "64.102.251.79"]

/-- The per-host loop of HostsView.get_data (views.py lines 169-176):
for each host, build the three dictionaries and append their merge; any
raising call propagates and aborts the whole loop, since the source has
no exception handling. -/
def fleetLoop (c : MonitorClient) : List String → Except String (List HostRow)
  | [] => Except.ok []
  | host :: rest =>
    match get_host_dict c host with
    | Except.error e => Except.error e
    | Except.ok g =>
      match get_host_cpu_dict c host with
      | Except.error e => Except.error e
      | Except.ok cpu =>
        match get_host_mem_dict c host with
        | Except.error e => Except.error e
        | Except.ok mem =>
          match fleetLoop c rest with
          | Except.error e => Except.error e
          | Except.ok rows =>
            Except.ok (⟨g.name, g.state, g.cls, g.errors, g.warnings, g.notices,
                        cpu.cpu_load, cpu.cores, cpu.cpu_speed, cpu.cpu_class,
                        mem.total_mem, mem.mem_usage, mem.mem_used, mem.mem_class⟩ :: rows)

/-- Embedding of HostsView.get_data (views.py lines 149-179).  The
host_list derived from the service catalog (lines 153-155) is immediately
shadowed by the hardcoded literal of lines 157-167, so the catalog_hosts
argument is dead; the loop then runs over sorted(host_list.keys()). -/
def get_data (c : MonitorClient) (catalog_hosts : List String) : Except String (List HostRow) :=
  let host_list := catalog_hosts
  let host_list := hardcoded_host_list
  fleetLoop c (sortStrings host_list)

/-- Rounding to the nearest integer, halves up: the floor of q + 1/2. -/
def spec_round (q : ℚ) : ℤ :=
  ⌊q + 1 / 2⌋

/-- Modelled from the spec: the aggregate used percentage required by
spec section 4.3 step 5, for interfaces given as (bandwidth, used)
pairs: round(total_weighted_used / total_bandwidth * 100) computed once
after all interfaces are processed.  This is the reference the code is
compared against; the source computes its aggregate differently. -/
def spec_aggregate_used (ifaces : List (ℚ × ℚ)) : ℤ :=
  let total_bandwidth := (ifaces.map Prod.fst).sum
  let total_weighted := (ifaces.map (fun p => p.2 / 100 * p.1)).sum
  spec_round (total_weighted / total_bandwidth * 100)

/-- Projection of a fleet result to the per-host name column. -/
def rowNames (e : Except String (List HostRow)) : Except String (List String) :=
  e.map (fun rows => rows.map HostRow.name)

/-- A monitoring client whose calls all succeed with fixed small values;
used as the base of the concrete clients below. -/
def baseClient : MonitorClient where
  get_overall_state := fun _ => Except.ok 1
  get_errors := fun _ => Except.ok []
  get_warnings := fun _ => Except.ok []
  get_notices := fun _ => Except.ok []
  get_cpu_load := fun _ => Except.ok 42
  get_cpu_cores := fun _ => Except.ok 4
  get_cpu_speed := fun _ => Except.ok 2
  get_total_memory := fun _ => Except.ok 8
  get_mem_usage := fun _ => Except.ok 25
  get_monitored_partitions := fun _ => Except.ok []
  get_partition_stats := fun _ _ => Except.ok ⟨0, 0⟩
  get_monitored_interfaces := fun _ => Except.ok []
  get_interface_stats := fun _ _ => Except.ok ⟨0, 0, 0, 0⟩

/-- Interface statistics used by the order-dependence counterexample:
ethA has bandwidth 10 at 100 percent used, ethB has bandwidth 100 at 50
percent used. -/
def statsTwoIfaces : String → String → Except String IntDet :=
  fun _ i => if i = "ethA" then Except.ok ⟨10, 0, 0, 100⟩ else Except.ok ⟨100, 0, 0, 50⟩

/-- Client enumerating ethA before ethB. -/
def clientAB : MonitorClient :=
  { baseClient with
    get_monitored_interfaces := fun _ => Except.ok ["ethA", "ethB"],
    get_interface_stats := statsTwoIfaces }

/-- Client enumerating ethB before ethA, with identical statistics. -/
def clientBA : MonitorClient :=
  { baseClient with
    get_monitored_interfaces := fun _ => Except.ok ["ethB", "ethA"],
    get_interface_stats := statsTwoIfaces }

/-- Client with three identical interfaces of bandwidth 100 at 50
percent used. -/
def clientThree : MonitorClient :=
  { baseClient with
    get_monitored_interfaces := fun _ => Except.ok ["eth0", "eth1", "eth2"],
    get_interface_stats := fun _ _ => Except.ok ⟨100, 0, 0, 50⟩ }

/-- Client for which fetching the cpu load of host 64.102.251.75 fails
and every other call succeeds. -/
def clientOneHostFails : MonitorClient :=
  { baseClient with
    get_cpu_load := fun host =>
      if host = "64.102.251.75" then Except.error "TransientFetchError" else Except.ok 42 }

/-- Client with the single interface eth0, bandwidth 100 at 50 percent
used. -/
def clientEth0 : MonitorClient :=
  { baseClient with
    get_monitored_interfaces := fun _ => Except.ok ["eth0"],
    get_interface_stats := fun _ _ => Except.ok ⟨100, 0, 0, 50⟩ }

lemma netStep_eq (c : MonitorClient) (host : String) (iface : Option String)
    (s : NetState) (i : String) (det : IntDet)
    (hi : c.get_interface_stats host i = Except.ok det)
    (hne : s.tband + det.bandwidth ≠ 0) :
    netStep c host iface s i = Except.ok
      ⟨(if iface = none ∨ iface = some i
        then s.net_ret ++ [⟨some i, det.bandwidth, det.rx, det.tx, det.used, classify det.used⟩]
        else s.net_ret),
       s.tband + det.bandwidth, s.ttx + det.tx, s.trx + det.rx,
       ((pyint ((s.tused + det.used / 100 * det.bandwidth) / (s.tband + det.bandwidth) * 100) : ℤ) : ℚ),
       classify ((pyint ((s.tused + det.used / 100 * det.bandwidth) / (s.tband + det.bandwidth) * 100) : ℤ) : ℚ)⟩ := by
  simp only [netStep, hi]
  rw [if_neg hne]

lemma foldlM_netStep_names_none (c : MonitorClient) (host : String) :
    ∀ (ints : List String) (s : NetState),
      (∀ i ∈ ints, ∃ det, c.get_interface_stats host i = Except.ok det ∧ 0 < det.bandwidth) →
      0 ≤ s.tband →
      ∃ s₂, List.foldlM (netStep c host none) s ints = Except.ok s₂ ∧
        s₂.net_ret.map IntDict.name = s.net_ret.map IntDict.name ++ ints.map some := by
  intro ints
  induction ints with
  | nil =>
    intro s _ _
    exact ⟨s, rfl, by simp⟩
  | cons i rest ih =>
    intro s hdet htb
    obtain ⟨det, hi, hb⟩ := hdet i (List.mem_cons_self i rest)
    have hne : s.tband + det.bandwidth ≠ 0 := by positivity
    have hstep := netStep_eq c host none s i det hi hne
    obtain ⟨s₂, hfold, hnames⟩ :=
      ih ⟨s.net_ret ++ [⟨some i, det.bandwidth, det.rx, det.tx, det.used, classify det.used⟩],
          s.tband + det.bandwidth, s.ttx + det.tx, s.trx + det.rx,
          ((pyint ((s.tused + det.used / 100 * det.bandwidth) / (s.tband + det.bandwidth) * 100) : ℤ) : ℚ),
          classify ((pyint ((s.tused + det.used / 100 * det.bandwidth) / (s.tband + det.bandwidth) * 100) : ℤ) : ℚ)⟩
        (fun j hj => hdet j (List.mem_cons_of_mem i hj)) (by positivity)
    refine ⟨s₂, ?_, ?_⟩
    · rw [List.foldlM_cons, hstep]
      simpa using hfold
    · rw [hnames]
      simp

lemma foldlM_netStep_names_some (c : MonitorClient) (host : String) (t : String) :
    ∀ (ints : List String) (s : NetState),
      (∀ i ∈ ints, ∃ det, c.get_interface_stats host i = Except.ok det ∧ 0 < det.bandwidth) →
      0 ≤ s.tband →
      ∃ s₂, List.foldlM (netStep c host (some t)) s ints = Except.ok s₂ ∧
        s₂.net_ret.map IntDict.name =
          s.net_ret.map IntDict.name ++ (ints.filter (fun i => i == t)).map some := by
  intro ints
  induction ints with
  | nil =>
    intro s _ _
    exact ⟨s, rfl, by simp⟩
  | cons i rest ih =>
    intro s hdet htb
    obtain ⟨det, hi, hb⟩ := hdet i (List.mem_cons_self i rest)
    have hne : s.tband + det.bandwidth ≠ 0 := by positivity
    have hstep := netStep_eq c host (some t) s i det hi hne
    obtain ⟨s₂, hfold, hnames⟩ :=
      ih ⟨(if (some t : Option String) = none ∨ (some t : Option String) = some i
           then s.net_ret ++ [⟨some i, det.bandwidth, det.rx, det.tx, det.used, classify det.used⟩]
           else s.net_ret),
          s.tband + det.bandwidth, s.ttx + det.tx, s.trx + det.rx,
          ((pyint ((s.tused + det.used / 100 * det.bandwidth) / (s.tband + det.bandwidth) * 100) : ℤ) : ℚ),
          classify ((pyint ((s.tused + det.used / 100 * det.bandwidth) / (s.tband + det.bandwidth) * 100) : ℤ) : ℚ)⟩
        (fun j hj => hdet j (List.mem_cons_of_mem i hj)) (by positivity)
    refine ⟨s₂, ?_, ?_⟩
    · rw [List.foldlM_cons, hstep]
      simpa using hfold
    · rw [hnames, List.filter_cons]
      by_cases hit : i = t
      · subst hit
        simp
      · have hit2 : ¬ ((some t : Option String) = none ∨ (some t : Option String) = some i) := by
          simp [Ne.symm hit]
        rw [if_neg hit2]
        simp [hit]


lemma netStep_zero (c : MonitorClient) (host : String) (iface : Option String)
    (s : NetState) (i : String) (det : IntDet)
    (hi : c.get_interface_stats host i = Except.ok det)
    (hz : s.tband + det.bandwidth = 0) :
    netStep c host iface s i = Except.error "ZeroDivisionError" := by
  simp only [netStep, hi]
  rw [if_pos hz]

/-- A client reporting zero total memory and 70 percent memory usage. -/
def clientZeroMem : MonitorClient :=
  { baseClient with
    get_total_memory := fun _ => Except.ok 0,
    get_mem_usage := fun _ => Except.ok 70 }

/-- C1: the claim states that permuting the order in which the interface
loop of _get_host_net_dict enumerates a fixed set of interfaces leaves
the aggregate used percent and its class unchanged.  The code violates
this: with interfaces ethA (bandwidth 10, used 100) and ethB (bandwidth
100, used 50), enumeration order ethA then ethB yields aggregate used 136
with class progress-danger, while order ethB then ethA yields aggregate
used 54 with class progress-success, because line 126 of views.py
overwrites the weighted-used accumulator with the truncated running
ratio on every iteration. -/
theorem c1_aggregate_order_dependence :
    get_host_net_dict clientAB "h" none =
      Except.ok [⟨some "ethA", 10, 0, 0, 100, "progress-danger"⟩,
                 ⟨some "ethB", 100, 0, 0, 50, "progress-success"⟩,
                 ⟨none, 110, 0, 0, 136, "progress-danger"⟩] ∧
    get_host_net_dict clientBA "h" none =
      Except.ok [⟨some "ethB", 100, 0, 0, 50, "progress-success"⟩,
                 ⟨some "ethA", 10, 0, 0, 100, "progress-danger"⟩,
                 ⟨none, 110, 0, 0, 54, "progress-success"⟩] ∧
    (136 : ℚ) ≠ 54 ∧ ("progress-danger" : String) ≠ "progress-success" := by
  have hA : statsTwoIfaces "h" "ethA" = Except.ok ⟨10, 0, 0, 100⟩ := by
    simp [statsTwoIfaces]
  have hB : statsTwoIfaces "h" "ethB" = Except.ok ⟨100, 0, 0, 50⟩ := by
    simp [statsTwoIfaces]
  refine ⟨?_, ?_, by norm_num, by simp⟩
  · norm_num [get_host_net_dict, clientAB, baseClient, hA, hB, netStep, initNetState,
              classify, pyint, List.foldlM, Bind.bind, Except.bind, Pure.pure, Except.pure]
  · norm_num [get_host_net_dict, clientBA, baseClient, hA, hB, netStep, initNetState,
              classify, pyint, List.foldlM, Bind.bind, Except.bind, Pure.pure, Except.pure]

/-- C2: the claim states that the aggregate used percent equals
round(total_weighted_used / total_bandwidth * 100) computed once after
all interfaces are processed.  The code violates this: for three
interfaces of bandwidth 100 at 50 percent used, the specified formula
gives 50, but the code produces 33, because the accumulator is
overwritten with the truncated running ratio inside the loop (views.py
line 126). -/
theorem c2_aggregate_not_single_pass :
    get_host_net_dict clientThree "h" none =
      Except.ok [⟨some "eth0", 100, 0, 0, 50, "progress-success"⟩,
                 ⟨some "eth1", 100, 0, 0, 50, "progress-success"⟩,
                 ⟨some "eth2", 100, 0, 0, 50, "progress-success"⟩,
                 ⟨none, 300, 0, 0, 33, "progress-success"⟩] ∧
    spec_aggregate_used [(100, 50), (100, 50), (100, 50)] = 50 ∧
    (33 : ℚ) ≠ 50 := by
  refine ⟨?_, ?_, by norm_num⟩
  · norm_num [get_host_net_dict, clientThree, baseClient, netStep, initNetState,
              classify, pyint, List.foldlM, Bind.bind, Except.bind, Pure.pure, Except.pure]
  · norm_num [spec_aggregate_used, spec_round]

/-- C3: the claim states that when fetching the telemetry of one host of
the fleet fails, get_data still returns one entry per host with the
failing host marked unavailable.  The code violates this: with a client
for which only the cpu load of host 64.102.251.75 fails, get_data
propagates the error and returns no entries at all, while the same
fleet with no failure yields all nine entries. -/
theorem c3_fleet_aborts_on_failure :
    get_data clientOneHostFails [] = Except.error "TransientFetchError" ∧
    rowNames (get_data baseClient []) = Except.ok hardcoded_host_list := by
  have hs : sortStrings hardcoded_host_list = hardcoded_host_list := by
    simp [sortStrings, insertSorted, strLe, charListLe, hardcoded_host_list]
  constructor
  · have hstate : ∀ h, clientOneHostFails.get_overall_state h = Except.ok 1 := fun _ => rfl
    have herr : ∀ h, clientOneHostFails.get_errors h = Except.ok [] := fun _ => rfl
    have hwarn : ∀ h, clientOneHostFails.get_warnings h = Except.ok [] := fun _ => rfl
    have hnot : ∀ h, clientOneHostFails.get_notices h = Except.ok [] := fun _ => rfl
    have hcores : ∀ h, clientOneHostFails.get_cpu_cores h = Except.ok 4 := fun _ => rfl
    have hspeed : ∀ h, clientOneHostFails.get_cpu_speed h = Except.ok 2 := fun _ => rfl
    have hmem : ∀ h, clientOneHostFails.get_total_memory h = Except.ok 8 := fun _ => rfl
    have husage : ∀ h, clientOneHostFails.get_mem_usage h = Except.ok 25 := fun _ => rfl
    have h71 : clientOneHostFails.get_cpu_load "64.102.251.71" = Except.ok 42 := by
      simp [clientOneHostFails]
    have h72 : clientOneHostFails.get_cpu_load "64.102.251.72" = Except.ok 42 := by
      simp [clientOneHostFails]
    have h73 : clientOneHostFails.get_cpu_load "64.102.251.73" = Except.ok 42 := by
      simp [clientOneHostFails]
    have h74 : clientOneHostFails.get_cpu_load "64.102.251.74" = Except.ok 42 := by
      simp [clientOneHostFails]
    have h75 : clientOneHostFails.get_cpu_load "64.102.251.75" =
        Except.error "TransientFetchError" := by
      simp [clientOneHostFails]
    norm_num [get_data, hs, hardcoded_host_list, fleetLoop, get_host_dict,
              get_host_cpu_dict, get_host_mem_dict, classify,
              hstate, herr, hwarn, hnot, hcores, hspeed, hmem, husage,
              h71, h72, h73, h74, h75]
  · norm_num [rowNames, get_data, hs, hardcoded_host_list, fleetLoop, get_host_dict,
              get_host_cpu_dict, get_host_mem_dict, baseClient, classify, Except.map]

/-- C4: the threshold chain classifies a percentage as CRITICAL
(progress-danger) iff it exceeds 90, WARNING (progress-warning) iff it
exceeds 60 but not 90, NORMAL (progress-success) otherwise; the
boundary values 60 and 90 classify NORMAL and WARNING; and the same
chain is what _get_host_cpu_dict, _get_host_mem_dict and the interface
loop of _get_host_net_dict apply to cpu load, memory usage and
per-interface used percent. -/
theorem c4_threshold_classifier :
    (∀ p : ℚ,
      (classify p = "progress-danger" ↔ 90 < p) ∧
      (classify p = "progress-warning" ↔ 60 < p ∧ p ≤ 90) ∧
      (classify p = "progress-success" ↔ p ≤ 60)) ∧
    classify 60 = "progress-success" ∧
    classify 90 = "progress-warning" ∧
    (∀ p : ℚ, ucOfClass (classify p) =
      some (if 90 < p then UtilizationClass.CRITICAL
            else if 60 < p then UtilizationClass.WARNING
            else UtilizationClass.NORMAL)) ∧
    (∀ c host d, get_host_cpu_dict c host = Except.ok d →
      d.cpu_class = classify d.cpu_load) ∧
    (∀ c host d, get_host_mem_dict c host = Except.ok d →
      d.mem_class = classify d.mem_usage) ∧
    (∀ c host iface s i s₂, netStep c host iface s i = Except.ok s₂ →
      ∀ r ∈ s₂.net_ret, r ∈ s.net_ret ∨ r.cls = classify r.used) := by
  refine ⟨?_, by norm_num [classify], by norm_num [classify], ?_, ?_, ?_, ?_⟩
  · intro p
    unfold classify
    split_ifs with h1 h2
    · exact ⟨⟨fun _ => h1, fun _ => rfl⟩,
             ⟨fun hh => absurd hh (by simp), fun hh => absurd hh.2 (by linarith)⟩,
             ⟨fun hh => absurd hh (by simp), fun hh => absurd h1 (by linarith)⟩⟩
    · exact ⟨⟨fun hh => absurd hh (by simp), fun hh => absurd hh h1⟩,
             ⟨fun _ => ⟨h2, not_lt.mp h1⟩, fun _ => rfl⟩,
             ⟨fun hh => absurd hh (by simp), fun hh => absurd h2 (by linarith)⟩⟩
    · exact ⟨⟨fun hh => absurd hh (by simp), fun hh => absurd hh h1⟩,
             ⟨fun hh => absurd hh (by simp), fun hh => absurd hh.1 h2⟩,
             ⟨fun _ => not_lt.mp h2, fun _ => rfl⟩⟩
  · intro p
    unfold classify
    split_ifs <;> simp [ucOfClass]
  · intro c host d hd
    unfold get_host_cpu_dict at hd
    cases h1 : c.get_cpu_load host with
    | error e => rw [h1] at hd; simp at hd
    | ok cpu_load =>
      rw [h1] at hd
      cases h2 : c.get_cpu_cores host with
      | error e => rw [h2] at hd; simp at hd
      | ok cores =>
        rw [h2] at hd
        cases h3 : c.get_cpu_speed host with
        | error e => rw [h3] at hd; simp at hd
        | ok cpu_speed =>
          rw [h3] at hd
          simp only [Except.ok.injEq] at hd
          subst hd
          rfl
  · intro c host d hd
    unfold get_host_mem_dict at hd
    cases h1 : c.get_total_memory host with
    | error e => rw [h1] at hd; simp at hd
    | ok total_mem =>
      rw [h1] at hd
      cases h2 : c.get_mem_usage host with
      | error e => rw [h2] at hd; simp at hd
      | ok mem_usage =>
        rw [h2] at hd
        simp only [Except.ok.injEq] at hd
        subst hd
        rfl
  · intro c host iface s i s₂ hstep r hr
    cases hi : c.get_interface_stats host i with
    | error e =>
      rw [show netStep c host iface s i = Except.error e by simp only [netStep, hi]] at hstep
      simp at hstep
    | ok det =>
      by_cases hz : s.tband + det.bandwidth = 0
      · rw [netStep_zero c host iface s i det hi hz] at hstep
        simp at hstep
      · rw [netStep_eq c host iface s i det hi hz] at hstep
        simp only [Except.ok.injEq] at hstep
        subst hstep
        simp only at hr
        by_cases hc : iface = none ∨ iface = some i
        · rw [if_pos hc] at hr
          rcases List.mem_append.mp hr with hl | hrr
          · exact Or.inl hl
          · right
            rw [List.mem_singleton.mp hrr]
        · rw [if_neg hc] at hr
          exact Or.inl hr

/-- C5: _get_host_dict classifies the integer health code as OK
(host_ok) when it is 1, WARNING (host_warn) when it is 0, and ERROR
(host_error) for every other integer. -/
theorem c5_health_code_classification (c : MonitorClient) (host : String) (n : ℤ)
    (h : c.get_overall_state host = Except.ok n)
    (d : HostDict) (hd : get_host_dict c host = Except.ok d) :
    d.state = n ∧
    healthOfClass d.cls =
      some (if n = 1 then HealthState.OK
            else if n = 0 then HealthState.WARNING
            else HealthState.ERROR) := by
  unfold get_host_dict at hd
  rw [h] at hd
  cases h1 : c.get_errors host with
  | error e => rw [h1] at hd; simp at hd
  | ok errors =>
    rw [h1] at hd
    cases h2 : c.get_warnings host with
    | error e => rw [h2] at hd; simp at hd
    | ok warnings =>
      rw [h2] at hd
      cases h3 : c.get_notices host with
      | error e => rw [h3] at hd; simp at hd
      | ok notices =>
        rw [h3] at hd
        simp only [Except.ok.injEq] at hd
        subst hd
        refine ⟨rfl, ?_⟩
        split_ifs <;> simp [healthOfClass]

/-- Witness for C5 at the concrete client whose health code is 1. -/
theorem c5_health_code_classification_witness :
    (⟨"h", 1, "host_ok", [], [], []⟩ : HostDict).state = 1 ∧
    healthOfClass (⟨"h", 1, "host_ok", [], [], []⟩ : HostDict).cls =
      some (if (1 : ℤ) = 1 then HealthState.OK
            else if (1 : ℤ) = 0 then HealthState.WARNING
            else HealthState.ERROR) :=
  c5_health_code_classification baseClient "h" 1 rfl ⟨"h", 1, "host_ok", [], [], []⟩
    (by norm_num [get_host_dict, baseClient])

/-- Witness for C4: the classifier conjunct applied to the concrete cpu
dictionary of the base client, whose load 42 classifies NORMAL. -/
theorem c4_threshold_classifier_witness :
    (⟨42, 4, 2, "progress-success"⟩ : CpuDict).cpu_class =
      classify (⟨42, 4, 2, "progress-success"⟩ : CpuDict).cpu_load :=
  c4_threshold_classifier.2.2.2.2.1 baseClient "h" ⟨42, 4, 2, "progress-success"⟩
    (by norm_num [get_host_cpu_dict, baseClient, classify])

/-- C6 counterexample: on a host with zero monitored interfaces the
aggregate row produced by _get_host_net_dict carries the empty class
string, which is not the NORMAL class progress-success, contradicting
the claim that the aggregate row carries UtilizationClass NORMAL. -/
theorem c6_zero_interfaces_counterexample :
    get_host_net_dict baseClient "h" none = Except.ok [⟨none, 0, 0, 0, 0, ""⟩] ∧
    ucOfClass "" ≠ some UtilizationClass.NORMAL ∧
    ("" : String) ≠ "progress-success" := by
  refine ⟨?_, by simp [ucOfClass], by simp⟩
  norm_num [get_host_net_dict, baseClient, initNetState, List.foldlM,
            Pure.pure, Except.pure]

/-- C6 amended: on a host with zero monitored interfaces
_get_host_net_dict does not fail and produces no per-interface rows;
when all interfaces are requested (sentinel None or All) the result is
only the aggregate row with used 0 and the empty class string (no
classification), and when a single other interface is named the result
is empty. -/
theorem c6_zero_interfaces_amended (c : MonitorClient) (host : String)
    (h : c.get_monitored_interfaces host = Except.ok []) :
    get_host_net_dict c host none = Except.ok [⟨none, 0, 0, 0, 0, ""⟩] ∧
    get_host_net_dict c host (some "All") = Except.ok [⟨none, 0, 0, 0, 0, ""⟩] ∧
    ∀ t, t ≠ "All" → get_host_net_dict c host (some t) = Except.ok [] := by
  refine ⟨?_, ?_, ?_⟩
  · simp [get_host_net_dict, h, initNetState, List.foldlM, Pure.pure, Except.pure]
  · simp [get_host_net_dict, h, initNetState, List.foldlM, Pure.pure, Except.pure]
  · intro t ht
    simp [get_host_net_dict, h, initNetState, List.foldlM, Pure.pure, Except.pure, ht]

/-- Witness for C6 amended at the base client, which has no monitored
interfaces. -/
theorem c6_zero_interfaces_amended_witness :
    get_host_net_dict baseClient "h" (some "All") = Except.ok [⟨none, 0, 0, 0, 0, ""⟩] :=
  (c6_zero_interfaces_amended baseClient "h" rfl).2.1

/-- C7: _get_host_mem_dict derives mem_used as
(mem_usage / 100) * total_mem, and when the reported total memory is
zero the derived value is zero for every usage percentage, with no
failure. -/
theorem c7_mem_used_bytes (c : MonitorClient) (host : String) (d : MemDict)
    (hd : get_host_mem_dict c host = Except.ok d) :
    d.mem_used = d.mem_usage / 100 * d.total_mem ∧
    (d.total_mem = 0 → d.mem_used = 0) := by
  unfold get_host_mem_dict at hd
  cases h1 : c.get_total_memory host with
  | error e => rw [h1] at hd; simp at hd
  | ok total_mem =>
    rw [h1] at hd
    cases h2 : c.get_mem_usage host with
    | error e => rw [h2] at hd; simp at hd
    | ok mem_usage =>
      rw [h2] at hd
      simp only [Except.ok.injEq] at hd
      subst hd
      refine ⟨rfl, fun hz => ?_⟩
      simp only at hz ⊢
      rw [hz, mul_zero]

/-- Witness for C7 at the client reporting zero total memory and usage
70 percent: the derived used-bytes value is zero. -/
theorem c7_mem_used_bytes_witness :
    (⟨0, 70, 0, "progress-warning"⟩ : MemDict).mem_used = 0 :=
  (c7_mem_used_bytes clientZeroMem "h" ⟨0, 70, 0, "progress-warning"⟩
    (by norm_num [get_host_mem_dict, clientZeroMem, baseClient, classify])).2 rfl

/-- C8: the claim states that get_data returns the per-host summaries of
the given host set in lexicographic order, so that input hosts 10.0.0.9
and 10.0.0.2 produce results named 10.0.0.2 then 10.0.0.9.  The code
violates this: lines 157-167 of views.py overwrite the catalog-derived
host set with a hardcoded nine-address literal, so the result names are
those nine addresses, even though the sort itself would order the two
given hosts as the claim says. -/
theorem c8_fleet_ignores_host_set :
    rowNames (get_data baseClient ["10.0.0.9", "10.0.0.2"]) = Except.ok hardcoded_host_list ∧
    hardcoded_host_list ≠ ["10.0.0.2", "10.0.0.9"] ∧
    sortStrings ["10.0.0.9", "10.0.0.2"] = ["10.0.0.2", "10.0.0.9"] := by
  have hs : sortStrings hardcoded_host_list = hardcoded_host_list := by
    simp [sortStrings, insertSorted, strLe, charListLe, hardcoded_host_list]
  refine ⟨?_, by simp [hardcoded_host_list], ?_⟩
  · norm_num [rowNames, get_data, hs, hardcoded_host_list, fleetLoop, get_host_dict,
              get_host_cpu_dict, get_host_mem_dict, baseClient, classify, Except.map]
  · simp [sortStrings, insertSorted, strLe, charListLe]

/-- C9 counterexample: with the single monitored interface eth0 and the
filter argument All, the claim predicts one row for eth0 followed by the
aggregate row, but _get_host_net_dict returns only the aggregate row,
because line 123 of views.py appends a per-interface row only when the
filter equals the interface name, not when it is the literal All. -/
theorem c9_filter_all_counterexample :
    get_host_net_dict clientEth0 "h" (some "All") =
      Except.ok [⟨none, 100, 0, 0, 50, "progress-success"⟩] ∧
    ([⟨none, 100, 0, 0, 50, "progress-success"⟩] : List IntDict) ≠
      [⟨some "eth0", 100, 0, 0, 50, "progress-success"⟩,
       ⟨none, 100, 0, 0, 50, "progress-success"⟩] := by
  refine ⟨?_, by simp⟩
  norm_num [get_host_net_dict, clientEth0, baseClient, netStep, initNetState, classify,
            pyint, List.foldlM, Bind.bind, Except.bind, Pure.pure, Except.pure]
  exact ⟨by simp, by simp⟩

/-- C9 amended: with the no-filter sentinel None the result has one row
per monitored interface, in enumeration order, with the aggregate row
appended last; with a named filter t the per-interface rows kept are
exactly those whose name equals t, and the aggregate row is appended
exactly when t is the literal All — so passing All yields no
per-interface rows (unless an interface is itself named All), only the
aggregate row. -/
theorem c9_filter_semantics_amended (c : MonitorClient) (host : String) (ints : List String)
    (hints : c.get_monitored_interfaces host = Except.ok ints)
    (hstats : ∀ i ∈ ints, ∃ det, c.get_interface_stats host i = Except.ok det ∧ 0 < det.bandwidth) :
    (∃ res, get_host_net_dict c host none = Except.ok res ∧
       res.map IntDict.name = ints.map some ++ [none]) ∧
    (∀ t, ∃ res, get_host_net_dict c host (some t) = Except.ok res ∧
       res.map IntDict.name =
         (ints.filter (fun i => i == t)).map some ++ if t = "All" then [none] else []) := by
  constructor
  · obtain ⟨s₂, hfold, hnames⟩ :=
      foldlM_netStep_names_none c host ints initNetState hstats (by norm_num [initNetState])
    refine ⟨s₂.net_ret ++ [⟨none, s₂.tband, s₂.trx, s₂.ttx, s₂.tused, s₂.tclass⟩], ?_, ?_⟩
    · simp only [get_host_net_dict, hints, hfold]
      simp
    · rw [List.map_append, hnames]
      simp [initNetState]
  · intro t
    obtain ⟨s₂, hfold, hnames⟩ :=
      foldlM_netStep_names_some c host t ints initNetState hstats (by norm_num [initNetState])
    by_cases ht : t = "All"
    · subst ht
      refine ⟨s₂.net_ret ++ [⟨none, s₂.tband, s₂.trx, s₂.ttx, s₂.tused, s₂.tclass⟩], ?_, ?_⟩
      · simp only [get_host_net_dict, hints, hfold]
        simp
      · rw [if_pos rfl, List.map_append, hnames]
        simp [initNetState]
    · refine ⟨s₂.net_ret, ?_, ?_⟩
      · simp only [get_host_net_dict, hints, hfold]
        rw [if_neg (by simp [ht])]
      · rw [if_neg ht, hnames]
        simp [initNetState]

/-- Witness for C9 amended at the single-interface client: requesting
all interfaces with the None sentinel yields the eth0 row followed by
the aggregate row. -/
theorem c9_filter_semantics_amended_witness :
    (get_host_net_dict clientEth0 "h" none).map (List.map IntDict.name) =
      Except.ok [some "eth0", none] := by
  obtain ⟨res, h1, h2⟩ :=
    (c9_filter_semantics_amended clientEth0 "h" ["eth0"] rfl
      (fun i _ => ⟨⟨100, 0, 0, 50⟩, rfl, by norm_num⟩)).1
  rw [h1, Except.map]
  rw [h2]
  simp

/-- C10: when a host has zero monitored partitions, _get_host_part_dict
fails with an unbound-variable error instead of returning an empty
sequence, because views.py line 85 reads the loop variable part_dict
that the empty loop never assigned, even though every monitoring-client
call succeeded. -/
theorem c10_zero_partitions_unbound_local (c : MonitorClient) (host : String)
    (h : c.get_monitored_partitions host = Except.ok []) :
    get_host_part_dict c host =
      Except.error "UnboundLocalError: local variable part_dict referenced before assignment" := by
  simp [get_host_part_dict, h, partLoop]

/-- Witness for C10 at the base client, which reports no monitored
partitions. -/
theorem c10_zero_partitions_unbound_local_witness :
    get_host_part_dict baseClient "h" =
      Except.error "UnboundLocalError: local variable part_dict referenced before assignment" :=
  c10_zero_partitions_unbound_local baseClient "h" rfl
